import Mathlib

/-!
Shallow embedding of the CloseApp backend (src/main.py): request/response
records, the tone and language formatting helpers, and the two generator
endpoints, together with theorems settling the specification claims.
-/

/-- Python str.lower, embedded as a character-wise map so it reduces in the kernel. -/
def pyLower (s : String) : String := String.mk (s.data.map Char.toLower)

/-- Python str.upper, embedded as a character-wise map so it reduces in the kernel. -/
def pyUpper (s : String) : String := String.mk (s.data.map Char.toUpper)

/-- Python str.strip: remove leading and trailing whitespace. -/
def pyStrip (s : String) : String :=
  String.mk (((s.data.dropWhile Char.isWhitespace).reverse.dropWhile Char.isWhitespace).reverse)

/-- Python truthiness fallback on strings: applying or to strings yields the
fallback when the first string is empty. -/
def orStr (s d : String) : String := if s = "" then d else s

/-- Python truthiness fallback on an optional string: `o or d` yields `d`
when `o` is `None` or the empty string. -/
def orOpt (o : Option String) (d : String) : String :=
  match o with
  | none => d
  | some s => orStr s d

/-- Python str.capitalize: first character uppercased, the rest lowercased. -/
def pyCapitalize (s : String) : String :=
  match s.data with
  | [] => ""
  | c :: cs => String.mk (c.toUpper :: cs.map Char.toLower)

/-- Helper for pyTitle: the boolean records whether the previous character
was alphabetic. -/
def pyTitleAux : Bool → List Char → List Char
  | _, [] => []
  | prev, c :: cs =>
    (if c.isAlpha then (if prev then c.toLower else c.toUpper) else c) :: pyTitleAux c.isAlpha cs

/-- Python str.title: uppercase every alphabetic character that follows a
non-alphabetic one, lowercase the other alphabetic characters. -/
def pyTitle (s : String) : String := String.mk (pyTitleAux false s.data)

/-- Boolean substring test on character lists. -/
def hasSub : List Char → List Char → Bool
  | [], pat => pat.isEmpty
  | s@(_ :: t), pat => pat.isPrefixOf s || hasSub t pat

/-- Boolean substring test on strings. -/
def strHasSub (s pat : String) : Bool := hasSub s.data pat.data

/-- Model of fastapi.HTTPException: a status code and a detail message. -/
structure HTTPException where
  status_code : Nat
  detail : String
deriving Repr, DecidableEq

/-- Request body of POST /api/close-response. Optional fields model the
pydantic Optional[str] fields; tone and language default to some "friendly"
and some "en" when absent from the JSON body. -/
structure CloseResponseRequest where
  customer_message : String
  brand_name : Option String := none
  offer : Option String := none
  tone : Option String := some "friendly"
  language : Option String := some "en"
deriving Repr, DecidableEq

/-- One generated close-response variant. -/
structure CloseResponseVariant where
  label : String
  text : String
deriving Repr, DecidableEq

/-- Response body of POST /api/close-response. -/
structure CloseResponseResult where
  brand_name : Option String
  tone : String
  language : String
  variants : List CloseResponseVariant
deriving Repr, DecidableEq

/-- Request body of POST /api/outreach. -/
structure OutreachRequest where
  platform : String
  brand_name : Option String := none
  offer : String
  target_audience : String
  goal : String := "book a call"
  tone : String := "friendly"
  language : String := "en"
deriving Repr, DecidableEq

/-- Response body of POST /api/outreach. -/
structure OutreachResult where
  platform : String
  tone : String
  language : String
  variations : List String
  tips : List String
deriving Repr, DecidableEq

/-- Embedding of _apply_language from src/main.py: English or empty codes
return the text unchanged; otherwise a bracketed tag from the fixed table
(or synthesized from the uppercased code) is prepended. -/
def apply_language (text language : String) : String :=
  if pyLower language ∈ (["en", "english", ""] : List String) then
    text
  else
    let translations : List (String × String) :=
      [("es", "[ES] "), ("fr", "[FR] "), ("de", "[DE] "), ("pt", "[PT] ")]
    let pfx := (translations.lookup (pyLower language)).getD ("[" ++ pyUpper language ++ "] ")
    pfx ++ text

/-- Embedding of _tone_prefix from src/main.py: lowercase the tone (falling
back to "friendly" when empty), look it up in the fixed table, and on a miss
return the lowercased tone capitalized. -/
def tonePrefix (tone : String) : String :=
  let t := pyLower (orStr tone "friendly")
  let mapping : List (String × String) :=
    [("friendly", "Friendly"), ("confident", "Confident"), ("professional", "Professional"),
     ("casual", "Casual"), ("warm", "Warm"), ("persuasive", "Persuasive")]
  (mapping.lookup t).getD (pyCapitalize t)

/-- Embedding of generate_close_response from src/main.py. -/
def generate_close_response (payload : CloseResponseRequest) :
    Except HTTPException CloseResponseResult :=
  if pyStrip payload.customer_message = "" then
    Except.error ⟨400, "customer_message is required"⟩
  else
    let brand := orOpt payload.brand_name "Our brand"
    let offer := orOpt payload.offer "our solution"
    let tone := orOpt payload.tone "friendly"
    let lang := orOpt payload.language "en"
    let base_variants : List (String × String) :=
      [("Direct Close", "Thanks for reaching out! Based on what you shared, " ++ offer ++ " is a great fit. If it works for you, I can reserve a spot and get you started today. Should I send the quick checkout link or a calendar to pick a time?"),
       ("Value-First", "Appreciate your message! To make this easy: " ++ offer ++ " helps you get results fast with minimal setup. We can lock in pricing and onboard you in minutes. Would you prefer a short call or to receive the sign-up link?"),
       ("Objection-Ready", "Totally understand your questions. Most clients like you chose " ++ offer ++ " because it’s simple and proven. Let me remove any roadblocks—what would help you decide today? I can share a quick demo or send the sign-up link.")]
    let variants := base_variants.map (fun lt =>
      { label := lt.1,
        text := apply_language (tonePrefix tone ++ " • " ++ brand ++ ": " ++ lt.2) lang
        : CloseResponseVariant })
    Except.ok { brand_name := payload.brand_name, tone := tone, language := lang, variants := variants }

/-- Embedding of generate_outreach from src/main.py. -/
def generate_outreach (payload : OutreachRequest) :
    Except HTTPException OutreachResult :=
  let platform := pyLower payload.platform
  let tone := payload.tone
  let lang := payload.language
  let brand := orOpt payload.brand_name "We"
  let offer := payload.offer
  let audience := payload.target_audience
  let goal := payload.goal
  if platform ∉ (["instagram", "linkedin", "twitter", "x", "email", "tiktok"] : List String) then
    Except.error ⟨400, "Unsupported platform. Use instagram, linkedin, twitter/x, email, tiktok"⟩
  else
    let wrap := fun (text : String) => apply_language (tonePrefix tone ++ " • " ++ text) lang
    let vt : List String × List String :=
      if platform = "instagram" then
        ([wrap ("Hey " ++ audience ++ "! " ++ brand ++ " helps you with " ++ offer ++ ". Want a quick before/after and how it works? Drop a 🔥 and I’ll DM details. " ++ pyTitle goal ++ " in 2 clicks."),
          wrap ("Creators/Founders: struggling with " ++ audience ++ "? We’re helping teams with " ++ offer ++ ". Comment ‘GO’ and I’ll send a 20-sec overview and " ++ goal ++ " link.")],
         ["Keep it short, use an emoji hook", "Call to comment or DM for next step", "Use carousel to show quick proof"])
      else if platform = "linkedin" then
        ([wrap ("Hi " ++ audience ++ ", I noticed you’re exploring ways to improve " ++ offer ++ ". We recently helped a team like yours and I’d be glad to share a 2-min summary. Open to a brief chat to " ++ goal ++ "?"),
          wrap (brand ++ " helps " ++ audience ++ " achieve results with " ++ offer ++ ". If streamlining this is on your roadmap, I can share a concise one-pager and a link to " ++ goal ++ ".")],
         ["Personalize with their role/company", "Lead with outcomes, not features", "End with a soft ask"])
      else if platform = "twitter" ∨ platform = "x" then
        ([wrap (audience ++ ", quick win: " ++ offer ++ ". DMs open—happy to share a 60-sec rundown and a link to " ++ goal ++ "."),
          wrap ("We’re shipping tools for " ++ audience ++ ": " ++ offer ++ ". Reply ‘info’ and I’ll send the breakdown + " ++ goal ++ " link.")],
         ["One clear benefit", "Invite replies/DMs", "Keep < 280 chars"])
      else if platform = "email" then
        ([wrap ("Subject: Quick idea for " ++ audience ++ "\n\nHi there — Noticed you’re working on " ++ offer ++ ". We helped similar teams see fast results. If helpful, I can share a 2-min summary and a link to " ++ goal ++ ". Open to it?"),
          wrap ("Subject: " ++ offer ++ " in a week\n\nHi — We built a simple way for " ++ audience ++ " to get results from " ++ offer ++ ". Happy to send a one-pager and next steps to " ++ goal ++ ". Interested?")],
         ["Clear subject line", "Keep body 3–5 sentences", "One simple ask"])
      else if platform = "tiktok" then
        ([wrap ("Hook: Struggling with " ++ audience ++ "?\n\nShow: 3 quick cuts of " ++ offer ++ " results\nCTA: Comment ‘GO’ and I’ll DM how to " ++ goal ++ "."),
          wrap ("POV: You need " ++ offer ++ ".\nB-Roll + captions → Outcome\nCTA: Link in bio to " ++ goal ++ ".")],
         ["Lead with a strong hook in first 2s", "Use captions and on-screen text", "Clear CTA to comment or link in bio"])
      else
        ([], [])
    Except.ok { platform := platform, tone := tone, language := lang, variations := vt.1, tips := vt.2 }

/-- Accepted outreach platforms, as checked by generate_outreach. -/
def acceptedPlatforms : List String :=
  ["instagram", "linkedin", "twitter", "x", "email", "tiktok"]

/-- Converting a valid code point back from Char.ofNat recovers the number. -/
theorem char_toNat_ofNat {n : Nat} (h : n.isValidChar) : (Char.ofNat n).toNat = n := by
  rw [Char.ofNat, dif_pos h]
  rfl

/-- Uppercasing after lowercasing a character agrees with uppercasing it directly. -/
theorem char_toUpper_toLower (c : Char) : c.toLower.toUpper = c.toUpper := by
  simp only [Char.toLower, Char.toUpper]
  by_cases h : c.toNat ≥ 65 ∧ c.toNat ≤ 90
  · rw [if_pos h]
    have hv : (Char.ofNat (c.toNat + 32)).toNat = c.toNat + 32 :=
      char_toNat_ofNat (Or.inl (by omega))
    rw [hv, if_pos (by omega : (c.toNat + 32 ≥ 97 ∧ c.toNat + 32 ≤ 122)),
      if_neg (by omega : ¬(c.toNat ≥ 97 ∧ c.toNat ≤ 122))]
    have he : c.toNat + 32 - 32 = c.toNat := by omega
    rw [he, Char.ofNat_toNat]
  · rw [if_neg h]

/-- Lowercasing a character twice is the same as lowercasing it once. -/
theorem char_toLower_toLower (c : Char) : c.toLower.toLower = c.toLower := by
  simp only [Char.toLower]
  by_cases h : c.toNat ≥ 65 ∧ c.toNat ≤ 90
  · rw [if_pos h]
    have hv : (Char.ofNat (c.toNat + 32)).toNat = c.toNat + 32 :=
      char_toNat_ofNat (Or.inl (by omega))
    rw [hv, if_neg (by omega : ¬(c.toNat + 32 ≥ 65 ∧ c.toNat + 32 ≤ 90))]
  · rw [if_neg h, if_neg h]

/-- Capitalizing the lowercased string agrees with capitalizing the string itself,
matching the behaviour of Python str.capitalize which lowercases the tail anyway. -/
theorem pyCapitalize_pyLower (s : String) : pyCapitalize (pyLower s) = pyCapitalize s := by
  rcases s with ⟨data⟩
  cases data with
  | nil => rfl
  | cons c cs =>
    simp [pyCapitalize, pyLower, List.map_map, Function.comp_def,
      char_toUpper_toLower, char_toLower_toLower]

/-- Language application always yields some tag (possibly empty) prepended to the text. -/
theorem apply_language_shape (X lang : String) : ∃ c, apply_language X lang = c ++ X := by
  by_cases h : pyLower lang ∈ (["en", "english", ""] : List String)
  · refine ⟨"", ?_⟩
    unfold apply_language
    rw [if_pos h]
    rfl
  · refine ⟨((([("es", "[ES] "), ("fr", "[FR] "), ("de", "[DE] "), ("pt", "[PT] ")] :
      List (String × String)).lookup (pyLower lang)).getD ("[" ++ pyUpper lang ++ "] ")), ?_⟩
    unfold apply_language
    rw [if_neg h]

/-- Reassociation of the close-response text around the default brand. -/
theorem ourBrand_append (tp txt : String) :
    tp ++ " • " ++ "Our brand" ++ ": " ++ txt = tp ++ " • Our brand: " ++ txt := by
  have h1 : (" • " : String) ++ "Our brand" ++ ": " = " • Our brand: " := rfl
  calc tp ++ " • " ++ "Our brand" ++ ": " ++ txt
      = tp ++ (" • " ++ "Our brand" ++ ": ") ++ txt := by simp [String.append_assoc]
    _ = tp ++ " • Our brand: " ++ txt := by rw [h1]

/-- Every close-response text built with the default brand decomposes around
the literal default marker. -/
theorem brandTextHelper (tp txt lang : String) :
    ∃ a b, apply_language (tp ++ " • " ++ "Our brand" ++ ": " ++ txt) lang =
      a ++ " • Our brand: " ++ b := by
  obtain ⟨c, hc⟩ := apply_language_shape (tp ++ " • " ++ "Our brand" ++ ": " ++ txt) lang
  refine ⟨c ++ tp, txt, ?_⟩
  rw [hc, ourBrand_append]
  simp [String.append_assoc]

/-- Language code en leaves text unchanged. -/
theorem apply_language_en_id (X : String) : apply_language X "en" = X := by
  unfold apply_language
  rw [if_pos (by decide)]

/-- A wrapped variation built from the Friendly label decomposes as the label
followed by a tail. -/
theorem friendlyStart (s : String) : ∃ t, "Friendly • " ++ s = "Friendly" ++ t :=
  ⟨" • " ++ s, by rw [show ("Friendly • " : String) = "Friendly" ++ " • " from rfl,
    String.append_assoc]⟩

/-- Claim C1: for every close-response request whose customer_message is
non-empty after trimming, generate_close_response succeeds with exactly three
variants whose labels appear in the fixed order Direct Close, Value-First,
Objection-Ready. -/
theorem close_response_three_variants_fixed_order (p : CloseResponseRequest)
    (h : pyStrip p.customer_message ≠ "") :
    ∃ r, generate_close_response p = Except.ok r ∧
      r.variants.map CloseResponseVariant.label =
        ["Direct Close", "Value-First", "Objection-Ready"] := by
  unfold generate_close_response
  rw [if_neg h]
  exact ⟨_, rfl, rfl⟩

/-- Witness for C1 at a concrete request. -/
theorem close_response_three_variants_fixed_order_witness :
    pyStrip "I want this" ≠ "" ∧
    (generate_close_response { customer_message := "I want this" }).map
        (fun r => r.variants.map CloseResponseVariant.label) =
      Except.ok ["Direct Close", "Value-First", "Objection-Ready"] := by
  obtain ⟨r, h1, h2⟩ :=
    close_response_three_variants_fixed_order { customer_message := "I want this" } (by decide)
  refine ⟨by decide, ?_⟩
  rw [h1]
  simp [Except.map, h2]

/-- Claim C2: for every outreach request whose lowercased platform is accepted,
generate_outreach succeeds with exactly 2 variations and exactly 3 tips; the
tips are the static per-platform lists from the code and do not depend on the
tone and language fields. -/
theorem outreach_two_variations_three_static_tips (p : OutreachRequest)
    (h : pyLower p.platform ∈ acceptedPlatforms) :
    ∃ r, generate_outreach p = Except.ok r ∧ r.variations.length = 2 ∧ r.tips.length = 3 ∧
      (∀ tone lang, ∃ r2,
        generate_outreach { p with tone := tone, language := lang } = Except.ok r2 ∧
        r2.tips = r.tips) ∧
      (pyLower p.platform = "instagram" → r.tips =
        ["Keep it short, use an emoji hook", "Call to comment or DM for next step", "Use carousel to show quick proof"]) ∧
      (pyLower p.platform = "linkedin" → r.tips =
        ["Personalize with their role/company", "Lead with outcomes, not features", "End with a soft ask"]) ∧
      (pyLower p.platform = "twitter" ∨ pyLower p.platform = "x" → r.tips =
        ["One clear benefit", "Invite replies/DMs", "Keep < 280 chars"]) ∧
      (pyLower p.platform = "email" → r.tips =
        ["Clear subject line", "Keep body 3–5 sentences", "One simple ask"]) ∧
      (pyLower p.platform = "tiktok" → r.tips =
        ["Lead with a strong hook in first 2s", "Use captions and on-screen text", "Clear CTA to comment or link in bio"]) := by
  simp only [acceptedPlatforms, List.mem_cons, List.not_mem_nil, or_false] at h
  rcases h with h|h|h|h|h|h <;> simp [generate_outreach, h]

/-- Witness for C2 at a concrete request. -/
theorem outreach_two_variations_three_static_tips_witness :
    pyLower "TikTok" ∈ acceptedPlatforms ∧
    (generate_outreach { platform := "TikTok", offer := "growth audits", target_audience := "founders" }).map
        (fun r => (r.variations.length, r.tips.length)) = Except.ok (2, 3) := by
  obtain ⟨r, h1, h2, h3, -⟩ :=
    outreach_two_variations_three_static_tips
      { platform := "TikTok", offer := "growth audits", target_audience := "founders" } (by decide)
  refine ⟨by decide, ?_⟩
  rw [h1]
  simp [Except.map, h2, h3]

/-- Claim C3: generate_close_response signals HTTP 400 with detail
customer_message is required exactly when the customer message trims to the
empty string; in that case no result record is produced. -/
theorem close_response_400_iff_blank_message (p : CloseResponseRequest) :
    generate_close_response p = Except.error ⟨400, "customer_message is required"⟩ ↔
      pyStrip p.customer_message = "" := by
  unfold generate_close_response
  by_cases h : pyStrip p.customer_message = "" <;> simp [h]

/-- Claim C4: generate_outreach signals HTTP 400 with the fixed detail message
exactly when the lowercased platform is outside the accepted set; acceptance is
case-insensitive, and a platform lowercasing to x or twitter is served from the
shared twitter template set (same variations and tips). -/
theorem outreach_unsupported_platform_iff (p : OutreachRequest) :
    (generate_outreach p =
        Except.error ⟨400, "Unsupported platform. Use instagram, linkedin, twitter/x, email, tiktok"⟩ ↔
      pyLower p.platform ∉ acceptedPlatforms) ∧
    (pyLower p.platform = "x" ∨ pyLower p.platform = "twitter" →
      ∃ r rtw, generate_outreach p = Except.ok r ∧
        generate_outreach { p with platform := "twitter" } = Except.ok rtw ∧
        r.variations = rtw.variations ∧ r.tips = rtw.tips) := by
  constructor
  · by_cases h : pyLower p.platform ∈
        (["instagram", "linkedin", "twitter", "x", "email", "tiktok"] : List String)
    · simp only [List.mem_cons, List.not_mem_nil, or_false] at h
      rcases h with h|h|h|h|h|h <;> simp [generate_outreach, acceptedPlatforms, h]
    · simp [generate_outreach, acceptedPlatforms, h]
  · intro hx
    have htw : pyLower "twitter" = "twitter" := by decide
    rcases hx with h|h <;> simp [generate_outreach, h, htw]

/-- Witness for C4: facebook is rejected with the fixed message, and platform X
is served the twitter variations. -/
theorem outreach_unsupported_platform_iff_witness :
    (generate_outreach { platform := "facebook", offer := "o", target_audience := "a" } =
      Except.error ⟨400, "Unsupported platform. Use instagram, linkedin, twitter/x, email, tiktok"⟩) ∧
    (generate_outreach { platform := "X", offer := "o", target_audience := "a" }).map
        OutreachResult.variations =
      (generate_outreach { ({ platform := "X", offer := "o", target_audience := "a" } :
          OutreachRequest) with platform := "twitter" }).map OutreachResult.variations := by
  constructor
  · exact (outreach_unsupported_platform_iff
      { platform := "facebook", offer := "o", target_audience := "a" }).1.mpr (by decide)
  · obtain ⟨r, rtw, h1, h2, h3, -⟩ :=
      (outreach_unsupported_platform_iff
        { platform := "X", offer := "o", target_audience := "a" }).2 (Or.inl (by decide))
    rw [h1, h2]
    simp [Except.map, h3]

/-- Claim C5: for every valid close-response request the result echoes the
original brand_name, including absence, while an absent brand_name makes every
generated variant text substitute the literal default Our brand after the tone
label. -/
theorem close_response_brand_echo_and_template_default (p : CloseResponseRequest)
    (h : pyStrip p.customer_message ≠ "") :
    ∃ r, generate_close_response p = Except.ok r ∧ r.brand_name = p.brand_name ∧
      (p.brand_name = none →
        ∀ v ∈ r.variants, ∃ a b, v.text = a ++ " • Our brand: " ++ b) := by
  unfold generate_close_response
  rw [if_neg h]
  refine ⟨_, rfl, rfl, ?_⟩
  intro hb v hv
  rw [hb] at hv
  simp only [orOpt, List.map_cons, List.map_nil, List.mem_cons, List.not_mem_nil, or_false] at hv
  rcases hv with hv|hv|hv <;> (rw [hv]; exact brandTextHelper _ _ _)

/-- Witness for C5 at a concrete request with no brand_name. -/
theorem close_response_brand_echo_and_template_default_witness :
    pyStrip "hello" ≠ "" ∧
    (generate_close_response { customer_message := "hello" }).map
        CloseResponseResult.brand_name = Except.ok none ∧
    (generate_close_response { customer_message := "hello" }).toOption.map
        (fun r => r.variants.map (fun v => strHasSub v.text " • Our brand: ")) =
      some [true, true, true] := by
  obtain ⟨r, h1, h2, -⟩ :=
    close_response_brand_echo_and_template_default { customer_message := "hello" } (by decide)
  refine ⟨by decide, ?_, by decide⟩
  rw [h1]
  simp [Except.map, h2]

/-- Claim C6: apply_language is the identity on its text argument whenever the
language code lowercases to en, english, or the empty string. -/
theorem apply_language_identity_on_english_codes (text code : String)
    (h : pyLower code ∈ (["en", "english", ""] : List String)) :
    apply_language text code = text := by
  unfold apply_language
  rw [if_pos h]

/-- Witness for C6 at the codes en, empty, and English. -/
theorem apply_language_identity_on_english_codes_witness :
    pyLower "English" ∈ (["en", "english", ""] : List String) ∧
    apply_language "Hola equipo" "English" = "Hola equipo" ∧
    apply_language "Hola equipo" "en" = "Hola equipo" ∧
    apply_language "Hola equipo" "" = "Hola equipo" :=
  ⟨by decide,
    apply_language_identity_on_english_codes "Hola equipo" "English" (by decide),
    apply_language_identity_on_english_codes "Hola equipo" "en" (by decide),
    apply_language_identity_on_english_codes "Hola equipo" "" (by decide)⟩

/-- Claim C7: for every non-English language code apply_language prepends a
bracketed tag to the unchanged text: the fixed table entry for es, fr, de, pt,
and otherwise a tag synthesized from the uppercased code. -/
theorem apply_language_bracketed_tags (text code : String)
    (h : pyLower code ∉ (["en", "english", ""] : List String)) :
    (pyLower code = "es" → apply_language text code = "[ES] " ++ text) ∧
    (pyLower code = "fr" → apply_language text code = "[FR] " ++ text) ∧
    (pyLower code = "de" → apply_language text code = "[DE] " ++ text) ∧
    (pyLower code = "pt" → apply_language text code = "[PT] " ++ text) ∧
    (pyLower code ∉ (["es", "fr", "de", "pt"] : List String) →
      apply_language text code = "[" ++ pyUpper code ++ "] " ++ text) := by
  refine ⟨?_, ?_, ?_, ?_, ?_⟩ <;> intro h2
  · simp [apply_language, h, h2, List.lookup]
  · simp [apply_language, h, h2, List.lookup]
  · simp [apply_language, h, h2, List.lookup]
  · simp [apply_language, h, h2, List.lookup]
  · simp only [List.mem_cons, List.not_mem_nil, or_false, not_or] at h2
    obtain ⟨k1, k2, k3, k4⟩ := h2
    have b1 : (pyLower code == "es") = false := beq_eq_false_iff_ne.mpr k1
    have b2 : (pyLower code == "fr") = false := beq_eq_false_iff_ne.mpr k2
    have b3 : (pyLower code == "de") = false := beq_eq_false_iff_ne.mpr k3
    have b4 : (pyLower code == "pt") = false := beq_eq_false_iff_ne.mpr k4
    simp [apply_language, h, List.lookup, b1, b2, b3, b4]

/-- Witness for C7: the es table entry in upper case, and a synthesized tag. -/
theorem apply_language_bracketed_tags_witness :
    pyLower "ES" ∉ (["en", "english", ""] : List String) ∧
    apply_language "great" "ES" = "[ES] great" ∧
    apply_language "great" "jp" = "[JP] great" := by
  refine ⟨by decide, ?_, ?_⟩
  · exact (apply_language_bracketed_tags "great" "ES" (by decide)).1 (by decide)
  · exact (apply_language_bracketed_tags "great" "jp" (by decide)).2.2.2.2 (by decide)

/-- Claim C8 counterexample: the empty tone is not a table key, yet tonePrefix
returns Friendly rather than the capitalized input (which is the empty
string), refuting the miss clause of the claim as stated. -/
theorem tonePrefix_empty_tone_refutation :
    ("" : String) ∉ (["friendly", "confident", "professional", "casual", "warm", "persuasive"] :
      List String) ∧
    tonePrefix "" ≠ pyCapitalize "" ∧ tonePrefix "" = "Friendly" :=
  ⟨by decide, by decide, by decide⟩

/-- Claim C8 as amended: tonePrefix looks up case-insensitively, returning the
fixed capitalized label for every casing of the six table keys; for any
non-empty tone whose lowercasing is not a table key it returns the input
capitalized; the empty tone falls back to friendly and yields Friendly. -/
theorem tonePrefix_case_insensitive_lookup (tone : String) :
    tonePrefix "FRIENDLY" = "Friendly" ∧ tonePrefix "friendly" = "Friendly" ∧
    (pyLower tone = "friendly" → tonePrefix tone = "Friendly") ∧
    (pyLower tone = "confident" → tonePrefix tone = "Confident") ∧
    (pyLower tone = "professional" → tonePrefix tone = "Professional") ∧
    (pyLower tone = "casual" → tonePrefix tone = "Casual") ∧
    (pyLower tone = "warm" → tonePrefix tone = "Warm") ∧
    (pyLower tone = "persuasive" → tonePrefix tone = "Persuasive") ∧
    (tone ≠ "" →
      pyLower tone ∉ (["friendly", "confident", "professional", "casual", "warm", "persuasive"] :
        List String) →
      tonePrefix tone = pyCapitalize tone) ∧
    tonePrefix "" = "Friendly" := by
  have key : ∀ lbl k : String, pyLower tone = k → (List.lookup k
      [("friendly", "Friendly"), ("confident", "Confident"), ("professional", "Professional"),
       ("casual", "Casual"), ("warm", "Warm"), ("persuasive", "Persuasive")] = some lbl) →
      tonePrefix tone = lbl := by
    intro lbl k hk hl
    by_cases he : tone = ""
    · rw [he] at hk
      have hk0 : k = "" := by rw [← hk]; rfl
      rw [hk0] at hl
      have hnone : List.lookup ""
          [("friendly", "Friendly"), ("confident", "Confident"), ("professional", "Professional"),
           ("casual", "Casual"), ("warm", "Warm"), ("persuasive", "Persuasive")] =
          (none : Option String) := by decide
      rw [hnone] at hl
      cases hl
    · simp [tonePrefix, orStr, he, hk, hl]
  refine ⟨by decide, by decide,
    fun h => key _ _ h (by decide), fun h => key _ _ h (by decide),
    fun h => key _ _ h (by decide), fun h => key _ _ h (by decide),
    fun h => key _ _ h (by decide), fun h => key _ _ h (by decide), ?_, by decide⟩
  intro hne hmem
  simp only [List.mem_cons, List.not_mem_nil, or_false, not_or] at hmem
  obtain ⟨k1, k2, k3, k4, k5, k6⟩ := hmem
  have b1 : (pyLower tone == "friendly") = false := beq_eq_false_iff_ne.mpr k1
  have b2 : (pyLower tone == "confident") = false := beq_eq_false_iff_ne.mpr k2
  have b3 : (pyLower tone == "professional") = false := beq_eq_false_iff_ne.mpr k3
  have b4 : (pyLower tone == "casual") = false := beq_eq_false_iff_ne.mpr k4
  have b5 : (pyLower tone == "warm") = false := beq_eq_false_iff_ne.mpr k5
  have b6 : (pyLower tone == "persuasive") = false := beq_eq_false_iff_ne.mpr k6
  rw [← pyCapitalize_pyLower]
  simp [tonePrefix, orStr, hne, List.lookup, b1, b2, b3, b4, b5, b6]

/-- Witness for the amended C8: an uppercased table key and a miss. -/
theorem tonePrefix_case_insensitive_lookup_witness :
    (pyLower "WARM" = "warm" ∧ tonePrefix "WARM" = "Warm") ∧
    (("zen" : String) ≠ "" ∧
      pyLower "zen" ∉ (["friendly", "confident", "professional", "casual", "warm", "persuasive"] :
        List String) ∧
      tonePrefix "zen" = pyCapitalize "zen") := by
  refine ⟨⟨by decide, ?_⟩, by decide, by decide, ?_⟩
  · exact (tonePrefix_case_insensitive_lookup "WARM").2.2.2.2.2.2.1 (by decide)
  · exact (tonePrefix_case_insensitive_lookup "zen").2.2.2.2.2.2.2.2.1 (by decide) (by decide)

/-- Claim C9: the email outreach request for an SEO audit aimed at startups
with all defaults yields a first variation containing the literal substring
Subject: Quick idea for startups. -/
theorem outreach_email_subject_line_example :
    ∃ r, generate_outreach
        { platform := "email", offer := "SEO audit", target_audience := "startups" } =
        Except.ok r ∧
      strHasSub (r.variations.headD "") "Subject: Quick idea for startups" = true := by
  refine ⟨_, rfl, ?_⟩
  decide

/-- Claim C10: generate_outreach echoes the tone field verbatim, so an accepted
platform with tone set to the empty string (and language en) yields a result
whose tone field is the empty string while every variation text still begins
with Friendly; by contrast generate_close_response with tone set to the empty
string echoes the resolved value friendly. -/
theorem outreach_verbatim_tone_echo (p : OutreachRequest) (q : CloseResponseRequest)
    (hp : pyLower p.platform ∈ acceptedPlatforms) (ht : p.tone = "") (hl : p.language = "en")
    (hq : q.tone = some "") (hm : pyStrip q.customer_message ≠ "") :
    (∃ r, generate_outreach p = Except.ok r ∧ r.tone = "" ∧
      ∀ v ∈ r.variations, ∃ t, v = "Friendly" ++ t) ∧
    (∃ rc, generate_close_response q = Except.ok rc ∧ rc.tone = "friendly") := by
  have hf : tonePrefix "" = "Friendly" := by decide
  constructor
  · simp only [acceptedPlatforms, List.mem_cons, List.not_mem_nil, or_false] at hp
    rcases hp with h|h|h|h|h|h <;>
    · simp [generate_outreach, h, ht, hl, hf, apply_language_en_id]
      exact ⟨friendlyStart _, friendlyStart _⟩
  · unfold generate_close_response
    rw [if_neg hm]
    refine ⟨_, rfl, ?_⟩
    simp [hq, orOpt, orStr]

/-- Witness for C10 at concrete requests with tone set to the empty string. -/
theorem outreach_verbatim_tone_echo_witness :
    (generate_outreach { platform := "instagram", offer := "o", target_audience := "a", tone := "", language := "en" }).map OutreachResult.tone = Except.ok "" ∧
    (generate_close_response { customer_message := "hey", tone := some "" }).map
        CloseResponseResult.tone = Except.ok "friendly" := by
  obtain ⟨⟨r, h1, h2, -⟩, rc, h4, h5⟩ :=
    outreach_verbatim_tone_echo
      { platform := "instagram", offer := "o", target_audience := "a", tone := "", language := "en" }
      { customer_message := "hey", tone := some "" }
      (by decide) rfl rfl rfl (by decide)
  constructor
  · rw [h1]
    simp [Except.map, h2]
  · rw [h4]
    simp [Except.map, h5]
